import Mathlib

set_option autoImplicit false

/-!
Verification of the cylink URL-shortener redirect-and-attribution pipeline.

The definitions below are a shallow embedding of
`src/middlewares/redirectMiddleware.ts` and of the ownership checks in
`src/routes/urlRoutes.ts`.  Database/services collaborators
(`urlService`, `impressionModel`, `conversionGoalModel`) are not part of
the repository sources; their observable call outcomes are inputs of the
embedding (fields of `Cylink.Env`), and reference models for them are
written from the specification where a claim needs their semantics.
-/

namespace Cylink

/-! ## Data model -/

/-- A `urls` table row as the redirect path observes it (spec section 3
ShortLink): destination URL, redirect type, activation flag, soft-delete
and expiry timestamps, nullable owner. -/
structure LinkRecord where
  id : Nat
  short_code : String
  original_url : String
  redirect_type : Option String
  is_active : Bool
  deleted_at : Option Nat
  expiry_date : Option Nat
  user_id : Option Int
  deriving DecidableEq, Repr

/-- The `{originalUrl, clickId, urlId}` object returned by
`urlService.recordClickAndGetOriginalUrl` (redirectMiddleware.ts line 143). -/
structure ResolveResult where
  originalUrl : String
  clickId : Nat
  urlId : Nat
  deriving DecidableEq, Repr

/-- A conversion-goal row; the redirect path reads only its `id`
(redirectMiddleware.ts line 205). -/
structure ConversionGoal where
  id : Nat
  deriving DecidableEq, Repr

/-- The row passed to `impressionModel.recordImpression`
(redirectMiddleware.ts lines 180-187). -/
structure ImpressionRow where
  url_id : Nat
  ip_address : Option String
  user_agent : String
  referrer : String
  is_unique : Bool
  source : String
  deriving DecidableEq, Repr

/-- A stored impression as seen by the recency check: link id, IP, and
creation time (milliseconds). -/
structure StoredImpression where
  url_id : Nat
  ip_address : Option String
  time : Nat
  deriving DecidableEq, Repr

/-! ## JavaScript-semantics helpers -/

/-- JavaScript `a || b` where both operands may be `undefined` (an absent
header): a present but empty string is falsy and falls through. -/
def jsOrOpt : Option String → Option String → Option String
  | some s, b => if s = "" then b else some s
  | none, b => b

/-- JavaScript `a || b` with a string default: `undefined` and `""` both
fall through to the default. -/
def jsOrString : Option String → String → String
  | some s, b => if s = "" then b else s
  | none, b => b

/-- JavaScript truthiness of a possibly-undefined string
(`if (req.clickInfo?.trackingId)`): `undefined` and `""` are falsy. -/
def jsTruthyStr : Option String → Bool
  | some s => decide (s ≠ "")
  | none => false

/-- JavaScript truthiness of a possibly-null number (`if (url.user_id && …)`):
`null` and `0` are falsy. -/
def jsTruthyInt : Option Int → Bool
  | some v => decide (v ≠ 0)
  | none => false

/-- JavaScript truthiness of a possibly-null natural (`if (goalId)`):
`null` and `0` are falsy. -/
def jsTruthyNat : Option Nat → Bool
  | some v => decide (v ≠ 0)
  | none => false

/-- Character-membership test mirroring JS `shortCode.includes('/')`. -/
def strContainsChar (s : String) (c : Char) : Bool := s.data.contains c

/-- Test mirroring JS `shortCode.startsWith('api')`
(redirectMiddleware.ts line 121). -/
def startsWithApi (code : String) : Bool := "api".data.isPrefixOf code.data

/-- JS `req.path.substring(1)` (redirectMiddleware.ts line 118): drop the
leading slash. -/
def extractShortCode (path : String) : String := String.mk (path.data.drop 1)

/-! ## Spec-modelled collaborators (code not present under src/) -/

/-- Eligibility of a link for redirect at time `now`: active, not
soft-deleted, and expiry absent or in the future (spec section 3 invariant). -/
def notExpired (now : Nat) (l : LinkRecord) : Bool :=
  match l.expiry_date with
  | none => true
  | some t => decide (now < t)

/-- Modelled from the spec: `urlService.getUrlByShortCode` is not in the
repository sources.  Spec section 4.1: return the matching link, excluding
soft-deleted and deactivated links, without evaluating expiry. -/
def getUrlByShortCode (store : List LinkRecord) (code : String) :
    Option LinkRecord :=
  store.find? (fun l => l.short_code == code && l.deleted_at == none && l.is_active)

/-- Modelled from the spec: `urlService.recordClickAndGetOriginalUrl` is not
in the repository sources.  Spec sections 3 and 4.3: resolve the code to a
link that is active, not soft-deleted and non-expired, record a click, and
return `{originalUrl, clickId, urlId}`; absence otherwise. -/
def recordClickAndGetOriginalUrl (store : List LinkRecord) (code : String)
    (now : Nat) (clickId : Nat) : Option ResolveResult :=
  (store.find? (fun l =>
      l.short_code == code && l.deleted_at == none && l.is_active
        && notExpired now l)).map
    (fun l => { originalUrl := l.original_url, clickId := clickId, urlId := l.id })

/-- The 30-minute impression-recency window, in milliseconds. -/
def thirtyMinutesMs : Nat := 30 * 60 * 1000

/-- Modelled from the spec: `impressionModel.hasRecentImpression` is not in
the repository sources.  Spec section 4.4: an impression for the given
(url, IP) pair exists within the trailing 30-minute window at time `now`. -/
def hasRecentImpression (istore : List StoredImpression) (urlId : Nat)
    (ip : Option String) (now : Nat) : Bool :=
  istore.any (fun s =>
    s.url_id == urlId && s.ip_address == ip
      && decide (now < s.time + thirtyMinutesMs))

/-! ## Conversion Attribution Trigger (`autoTrackConversion`) -/

/-- The outbound HTTP request built by `autoTrackConversion`
(redirectMiddleware.ts lines 47-62). -/
structure ConvRequest where
  hostPath : String
  method : String
  tracking_id : String
  goal_id : Nat
  deriving DecidableEq, Repr

/-- The request `autoTrackConversion` issues for the given tracking id and
goal id: `POST /api/v1/conversions` with JSON body `{tracking_id, goal_id}`. -/
def conversionRequest (trackingId : String) (goalId : Nat) : ConvRequest :=
  { hostPath := "/api/v1/conversions"
    method := "POST"
    tracking_id := trackingId
    goal_id := goalId }

/-- The response body of the conversions endpoint as `autoTrackConversion`
reads it: `data` object carrying an optional `conversion_id`, and an
optional `message`. -/
structure ConvRespBody where
  data : Option (Option Nat)
  message : Option String
  deriving DecidableEq, Repr

/-- What the outbound HTTP call produced: a transport error, or a response
with an optional status code and a body that either parses as JSON
(`some body`) or is malformed (`none`). -/
inductive ConvHttpOutcome
  | requestError
  | response (statusCode : Option Nat) (body : Option ConvRespBody)
  deriving DecidableEq, Repr

/-- JS `res.statusCode && res.statusCode >= 200 && res.statusCode < 300`
(redirectMiddleware.ts line 76). -/
def status2xxJs : Option Nat → Bool
  | some v => decide (v ≠ 0) && decide (200 ≤ v) && decide (v < 300)
  | none => false

/-- How `autoTrackConversion` settles: logged success with the returned
conversion id, logged error (promise still resolves), or a rejection
(parse failure or transport error). -/
inductive ConvResult
  | successLogged (conversionId : Option Nat)
  | errorLogged (message : String)
  | parseErrorRejected
  | requestErrorRejected
  deriving DecidableEq, Repr

/-- Shallow embedding of `autoTrackConversion` (redirectMiddleware.ts
lines 40-105) as a function of the observed HTTP outcome: a malformed body
or a missing `data` object hits the parse `catch` and rejects; a 2xx status
with a `data` object logs success; any other status logs
`result.message || 'Unknown error'` and resolves; a transport error rejects. -/
def autoTrackConversion (outcome : ConvHttpOutcome) : ConvResult :=
  match outcome with
  | .requestError => .requestErrorRejected
  | .response s body =>
    match body with
    | none => .parseErrorRejected
    | some b =>
      if status2xxJs s then
        match b.data with
        | some cid => .successLogged cid
        | none => .parseErrorRejected
      else
        .errorLogged (jsOrString b.message "Unknown error")

/-- Whether the `autoTrackConversion` promise rejects. -/
def convRejects : ConvResult → Bool
  | .parseErrorRejected => true
  | .requestErrorRejected => true
  | _ => false

/-- How the detached conversion task ends: nothing ever escapes it. -/
inductive TaskEnd
  | resolved
  | errorLoggedOnly
  deriving DecidableEq, Repr

/-- The scheduled task `autoTrackConversion(…).catch(err => logger.error(…))`
(redirectMiddleware.ts lines 222-226): a rejection is converted to a log
entry, so the task always terminates without raising. -/
def scheduledConversionTask (outcome : ConvHttpOutcome) : TaskEnd :=
  if convRejects (autoTrackConversion outcome) then .errorLoggedOnly else .resolved

/-! ## Redirect middleware -/

/-- The incoming request as the middleware reads it: path and the headers
and hooks it consumes. -/
structure Req where
  path : String
  xForwardedFor : Option String
  socketRemoteAddress : Option String
  userAgent : Option String
  referer : Option String
  referrerHeader : Option String
  hasSetClickId : Bool

/-- Observable outcomes of the middleware's collaborator calls during one
request.  `establishedTrackingId` is the value of `req.clickInfo?.trackingId`
after the `setClickId` hook ran (the token-generation collaborator is
outside the repository sources; spec section 4.3). -/
structure Env where
  parseHost : String → Option String
  establishedTrackingId : Option String
  resolveCall : Except Unit (Option ResolveResult)
  urlLookupCall : Except Unit (Option LinkRecord)
  hasRecentCall : Except Unit Bool
  recordImpressionOutcome : Except Unit Unit
  goalsCall : Except Unit (List ConversionGoal)
  conversionOutcome : ConvHttpOutcome

/-- The response the middleware produces: pass-through, an HTTP redirect,
or a JSON body `{status, message}` sent with an HTTP status. -/
inductive Resp
  | next
  | redirect (status : Nat) (location : String)
  | json (status : Nat) (bodyStatus : Nat) (message : String)
  deriving DecidableEq, Repr

/-- Side effects of one middleware run: whether resolution was attempted,
the `setClickId` call, the impression row handed to `recordImpression`,
and the scheduled conversion call `(trackingId, goalId)`. -/
structure Effects where
  resolveAttempted : Bool := false
  setClickIdCalled : Option (Nat × Nat) := none
  impressionRecorded : Option ImpressionRow := none
  conversionScheduled : Option (String × Nat) := none
  deriving DecidableEq, Repr

/-- JS `!shortCode || shortCode.includes('/') || shortCode.startsWith('api')`
(redirectMiddleware.ts line 121). -/
def isSkipped (code : String) : Bool :=
  code == "" || strContainsChar code '/' || startsWithApi code

/-- JS `url?.redirect_type === '301' ? 301 : 302`
(redirectMiddleware.ts line 152). -/
def chooseRedirectType (url : Option LinkRecord) : Nat :=
  match url with
  | some u => if u.redirect_type == some "301" then 301 else 302
  | none => 302

/-- Traffic-source derivation (redirectMiddleware.ts lines 162-173): empty
for an empty referrer, else the hostname of the referrer parsed as a URL,
falling back to the raw referrer when parsing fails. -/
def trafficSource (parseHost : String → Option String) (referrer : String) :
    String :=
  if referrer == "" then ""
  else
    match parseHost referrer with
    | some host => host
    | none => referrer

/-- The fixed UTM query-parameter block (redirectMiddleware.ts line 217). -/
def utmTail : String :=
  "utm_source=cylink&utm_medium=shortlink&utm_campaign=conversion&utm_content="

/-- UTM construction (redirectMiddleware.ts lines 216-217): join with `&`
when the URL already has a query string, `?` otherwise. -/
def appendUtm (url : String) (trackingId : String) : String :=
  let separator := if strContainsChar url '?' then "&" else "?"
  url ++ separator ++ utmTail ++ trackingId

/-- Shallow embedding of the redirect middleware (redirectMiddleware.ts
lines 115-249), following the source line by line: extract and screen the
short code; resolve and record the click (a throw hits the outer catch and
yields the 500 body, absence yields the 404 body); look up the link for the
redirect type (a throw also yields 500); inside an isolated try, derive the
impression row and hand it to the fire-and-forget insert unless the recency
check threw; look up conversion goals (a throw leaves the goal absent);
append UTM parameters only when a tracking id is established, and schedule
the conversion call only when additionally the goal id is truthy
(`if (goalId)` at line 220: a null or zero id makes no call); finally issue
the redirect. -/
def redirectMiddleware (env : Env) (req : Req) : Resp × Effects :=
  let shortCode := extractShortCode req.path
  if isSkipped shortCode then
    (Resp.next, {})
  else
    match env.resolveCall with
    | .error _ => (Resp.json 500 500 "Internal Server Error", { resolveAttempted := true })
    | .ok none =>
      (Resp.json 404 404 "Short URL not found or has expired", { resolveAttempted := true })
    | .ok (some r) =>
      let clicked := if req.hasSetClickId then some (r.clickId, r.urlId) else none
      match env.urlLookupCall with
      | .error _ =>
        (Resp.json 500 500 "Internal Server Error",
         { resolveAttempted := true, setClickIdCalled := clicked })
      | .ok url =>
        let redirectType := chooseRedirectType url
        let ipAddress := jsOrOpt req.xForwardedFor req.socketRemoteAddress
        let userAgent := jsOrString req.userAgent ""
        let referrer := jsOrString req.referer (jsOrString req.referrerHeader "")
        let source := trafficSource env.parseHost referrer
        let impression :=
          match env.hasRecentCall with
          | .error _ => none
          | .ok recent =>
            some { url_id := r.urlId
                   ip_address := ipAddress
                   user_agent := userAgent
                   referrer := referrer
                   is_unique := !recent
                   source := source : ImpressionRow }
        let goalId :=
          match env.goalsCall with
          | .error _ => none
          | .ok [] => none
          | .ok (g :: _) => some g.id
        if jsTruthyStr env.establishedTrackingId then
          let trackingId := env.establishedTrackingId.getD ""
          (Resp.redirect redirectType (appendUtm r.originalUrl trackingId),
           { resolveAttempted := true
             setClickIdCalled := clicked
             impressionRecorded := impression
             conversionScheduled :=
               if jsTruthyNat goalId then goalId.map (fun g => (trackingId, g))
               else none })
        else
          (Resp.redirect redirectType r.originalUrl,
           { resolveAttempted := true
             setClickIdCalled := clicked
             impressionRecorded := impression
             conversionScheduled := none })

/-! ## Authenticated URL handlers (`urlRoutes.ts`) -/

/-- Outcome of an authenticated handler: an error response
`sendResponse(res, status, message)` or the success path. -/
inductive HandlerResp
  | error (status : Nat) (message : String)
  | success
  deriving DecidableEq, Repr

/-- The ownership guard `url.user_id && url.user_id !== userId`
(urlRoutes.ts lines 1229, 1322, 1396), with JS truthiness of the
nullable owner id. -/
def ownershipRejects (userId : Int) (owner : Option Int) : Bool :=
  jsTruthyInt owner && !(owner == some userId)

/-- Shallow embedding of `getUrlDetails` (urlRoutes.ts lines 1204-1293)
around its ownership gate: 404 when the lookup misses, 401 when the guard
fires, otherwise the downstream reads run (their failure is the catch-all
500) and the details response is sent. -/
def getUrlDetails (lookup : Option LinkRecord) (userId : Int)
    (downstream : Except Unit Unit) : HandlerResp :=
  match lookup with
  | none => .error 404 "URL not found"
  | some url =>
    if ownershipRejects userId url.user_id then .error 401 "Unauthorized"
    else
      match downstream with
      | .error _ => .error 500 "Internal Server Error"
      | .ok _ => .success

/-- Shallow embedding of `deleteUrl` (urlRoutes.ts lines 1302-1358):
400 on a non-numeric id parameter, 404 on a missing URL, 401 when the
ownership guard fires, 500 when the model reports the delete failed,
success otherwise. -/
def deleteUrl (idParam : Option Int) (lookup : Option LinkRecord)
    (userId : Int) (isDeleted : Bool) : HandlerResp :=
  match idParam with
  | none => .error 400 "Invalid URL ID"
  | some _ =>
    match lookup with
    | none => .error 404 "URL not found"
    | some url =>
      if ownershipRejects userId url.user_id then .error 401 "Unauthorized"
      else if !isDeleted then .error 500 "Failed to delete URL"
      else .success

/-- Shallow embedding of `getUrlAnalytics` (urlRoutes.ts lines 1376-1438)
around its ownership gate, with the downstream analytics fetch abstracted
as an outcome. -/
def getUrlAnalytics (idParam : Option Int) (lookup : Option LinkRecord)
    (userId : Int) (downstream : Except Unit Unit) : HandlerResp :=
  match idParam with
  | none => .error 400 "Invalid URL ID"
  | some _ =>
    match lookup with
    | none => .error 404 "URL not found"
    | some url =>
      if ownershipRejects userId url.user_id then .error 401 "Unauthorized"
      else
        match downstream with
        | .error _ => .error 500 "Internal Server Error"
        | .ok _ => .success

/-! ## Concrete inputs used by the closed theorems -/

/-- A concrete hostname extractor standing in for `new URL(referrer).hostname`. -/
def parseHostW : String → Option String := fun s =>
  if s = "https://ref.example/page" then some "ref.example" else none

/-- A concrete request whose path carries the short code `abc123`. -/
def reqW : Req :=
  { path := "/abc123"
    xForwardedFor := some "1.2.3.4"
    socketRemoteAddress := some "5.6.7.8"
    userAgent := some "agentX"
    referer := some "https://ref.example/page"
    referrerHeader := none
    hasSetClickId := true }

/-- A baseline environment: no tracking id, empty outcomes. -/
def envBase : Env :=
  { parseHost := parseHostW
    establishedTrackingId := none
    resolveCall := .ok none
    urlLookupCall := .ok none
    hasRecentCall := .ok false
    recordImpressionOutcome := .ok ()
    goalsCall := .ok []
    conversionOutcome := .requestError }

/-- An active, non-deleted, non-expiring link whose short code starts with
the reserved prefix. -/
def apiLink : LinkRecord :=
  { id := 1
    short_code := "apifoo"
    original_url := "https://example.com/landing"
    redirect_type := some "301"
    is_active := true
    deleted_at := none
    expiry_date := none
    user_id := none }

/-- A request for the reserved-prefix short code. -/
def apiReq : Req := { reqW with path := "/apifoo" }

/-- Environment whose collaborators follow the spec model over a store
holding only `apiLink`. -/
def apiEnv : Env :=
  { envBase with
    resolveCall := .ok (recordClickAndGetOriginalUrl [apiLink] "apifoo" 0 1)
    urlLookupCall := .ok (getUrlByShortCode [apiLink] "apifoo") }

/-- A valid, active, unexpired link with permanent redirect type. -/
def validLink : LinkRecord :=
  { id := 7
    short_code := "abc123"
    original_url := "https://example.com/page?x=1"
    redirect_type := some "301"
    is_active := true
    deleted_at := none
    expiry_date := some 1000
    user_id := some 1 }

/-- Environment whose collaborators follow the spec model over a store
holding only `validLink`, at time 500 (< expiry). -/
def validEnv : Env :=
  { envBase with
    resolveCall := .ok (recordClickAndGetOriginalUrl [validLink] "abc123" 500 11)
    urlLookupCall := .ok (getUrlByShortCode [validLink] "abc123") }

/-- The resolve result for `validLink`. -/
def rW : ResolveResult :=
  { originalUrl := "https://example.com/page?x=1", clickId := 11, urlId := 7 }

/-- Environment where the code resolved and the link was fetched. -/
def envResolved : Env :=
  { envBase with
    resolveCall := .ok (some rW)
    urlLookupCall := .ok (some validLink) }

/-- Environment additionally carrying an established tracking id. -/
def envTid : Env := { envResolved with establishedTrackingId := some "abc123" }

/-- Environment with tracking id and two conversion goals. -/
def envGoals : Env :=
  { envTid with goalsCall := .ok [{ id := 31 }, { id := 32 }] }

/-- Environment with tracking id and one conversion goal whose id is the
JS-falsy value 0. -/
def envGoalZero : Env :=
  { envTid with goalsCall := .ok [{ id := 0 }] }

/-- One stored impression for (url 7, IP 1.2.3.4) at time 0. -/
def istoreW : List StoredImpression :=
  [{ url_id := 7, ip_address := some "1.2.3.4", time := 0 }]

/-- Environment whose recency check follows the spec model 10 minutes
after the stored impression. -/
def envRecent : Env :=
  { envResolved with
    hasRecentCall :=
      .ok (hasRecentImpression istoreW 7
        (jsOrOpt (some "1.2.3.4") (some "5.6.7.8")) 600000) }

/-- Environment whose recency check follows the spec model 31 minutes
after the stored impression. -/
def envStale : Env :=
  { envResolved with
    hasRecentCall :=
      .ok (hasRecentImpression istoreW 7
        (jsOrOpt (some "1.2.3.4") (some "5.6.7.8")) 1860000) }

/-- A request for a reserved API path. -/
def reqApi : Req := { reqW with path := "/api/v1/urls" }

/-- An anonymous link: `user_id` is null. -/
def anonUrl : LinkRecord :=
  { id := 9
    short_code := "anon"
    original_url := "https://example.com/"
    redirect_type := none
    is_active := true
    deleted_at := none
    expiry_date := none
    user_id := none }

/-! ## Helper lemmas -/

/-- On a resolved request the middleware's output is this explicit pair:
one unfolding lemma shared by the per-claim theorems. -/
theorem middleware_resolved (env : Env) (req : Req) (r : ResolveResult)
    (u : Option LinkRecord)
    (hskip : isSkipped (extractShortCode req.path) = false)
    (hres : env.resolveCall = .ok (some r))
    (hurl : env.urlLookupCall = .ok u) :
    redirectMiddleware env req =
      (Resp.redirect (chooseRedirectType u)
        (if jsTruthyStr env.establishedTrackingId then
          appendUtm r.originalUrl (env.establishedTrackingId.getD "")
         else r.originalUrl),
       { resolveAttempted := true
         setClickIdCalled :=
           if req.hasSetClickId then some (r.clickId, r.urlId) else none
         impressionRecorded :=
           match env.hasRecentCall with
           | .error _ => none
           | .ok recent =>
             some { url_id := r.urlId
                    ip_address := jsOrOpt req.xForwardedFor req.socketRemoteAddress
                    user_agent := jsOrString req.userAgent ""
                    referrer := jsOrString req.referer (jsOrString req.referrerHeader "")
                    is_unique := !recent
                    source := trafficSource env.parseHost
                      (jsOrString req.referer (jsOrString req.referrerHeader "")) }
         conversionScheduled :=
           if jsTruthyStr env.establishedTrackingId then
             (if jsTruthyNat
                 (match env.goalsCall with
                  | .error _ => none
                  | .ok [] => none
                  | .ok (g :: _) => some g.id) then
               (match env.goalsCall with
                | .error _ => none
                | .ok [] => none
                | .ok (g :: _) => some g.id).map
                 (fun g => (env.establishedTrackingId.getD "", g))
              else none)
           else none }) := by
  simp only [redirectMiddleware, hskip, Bool.false_eq_true, if_false, hres, hurl]
  cases htid : jsTruthyStr env.establishedTrackingId <;> simp [htid]

/-- `find?` over a store returns the unique record carrying the code when
the predicate both implies the code and holds at that record. -/
theorem findUniqueCode (p : LinkRecord → Bool) (code : String) (l : LinkRecord)
    (store : List LinkRecord)
    (himp : ∀ l', p l' = true → l'.short_code = code)
    (hmem : l ∈ store) (hpl : p l = true)
    (huniq : ∀ l' ∈ store, l'.short_code = code → l' = l) :
    store.find? p = some l := by
  induction store with
  | nil => cases hmem
  | cons h t ih =>
    rcases List.mem_cons.mp hmem with rfl | hmemt
    · rw [List.find?_cons_of_pos _ hpl]
    · by_cases hph : p h = true
      · have hhl : h = l := huniq h (List.mem_cons_self h t) (himp h hph)
        subst hhl
        rw [List.find?_cons_of_pos _ hph]
      · rw [List.find?_cons_of_neg _ (by simpa using hph)]
        exact ih hmemt (fun l' hl' hc => huniq l' (List.mem_cons_of_mem _ hl') hc)

/-- The spec-modelled recency check is false exactly when every stored
impression for the pair is outside the trailing window. -/
theorem hasRecentImpression_eq_false (istore : List StoredImpression)
    (urlId : Nat) (ip : Option String) (now : Nat) :
    hasRecentImpression istore urlId ip now = false ↔
      ∀ s ∈ istore, s.url_id = urlId → s.ip_address = ip →
        s.time + thirtyMinutesMs ≤ now := by
  rw [Bool.eq_false_iff]
  simp [hasRecentImpression, List.any_eq_true, Nat.not_lt]

/-! ## Claim theorems -/

/-- C8: for every incoming path whose segment after the leading slash is
empty, contains a slash, or starts with the reserved `api` prefix, the
middleware passes control to the next handler and performs no resolution,
click recording, impression write or conversion scheduling. -/
theorem reserved_or_malformed_path_passthrough (env : Env) (req : Req)
    (h : extractShortCode req.path = "" ∨
      strContainsChar (extractShortCode req.path) '/' = true ∨
      startsWithApi (extractShortCode req.path) = true) :
    redirectMiddleware env req = (Resp.next, {}) := by
  have hskip : isSkipped (extractShortCode req.path) = true := by
    rcases h with h | h | h <;> simp [isSkipped, h]
  simp [redirectMiddleware, hskip]

/-- C8 witness: the reserved path `/api/v1/urls` passes straight through. -/
theorem reserved_or_malformed_path_passthrough_witness :
    redirectMiddleware envBase reqApi = (Resp.next, {}) :=
  reserved_or_malformed_path_passthrough envBase reqApi
    (Or.inr (Or.inr (by decide)))

/-- C2: when the path is a candidate short code and the resolve-and-record
lookup returns no result, the response is exactly the 404 JSON body
`{status: 404, message: "Short URL not found or has expired"}` and is not a
redirect. -/
theorem notfound_response_for_unresolved_code (env : Env) (req : Req)
    (hskip : isSkipped (extractShortCode req.path) = false)
    (hres : env.resolveCall = .ok none) :
    (redirectMiddleware env req).1 =
      Resp.json 404 404 "Short URL not found or has expired" ∧
    ∀ st loc, (redirectMiddleware env req).1 ≠ Resp.redirect st loc := by
  have hout : (redirectMiddleware env req).1 =
      Resp.json 404 404 "Short URL not found or has expired" := by
    simp [redirectMiddleware, hskip, hres]
  exact ⟨hout, fun st loc => by rw [hout]; intro hc; cases hc⟩

/-- C2 witness: an unresolved code on a well-formed path yields the 404 body. -/
theorem notfound_response_for_unresolved_code_witness :
    (redirectMiddleware envBase reqW).1 =
      Resp.json 404 404 "Short URL not found or has expired" ∧
    ∀ st loc, (redirectMiddleware envBase reqW).1 ≠ Resp.redirect st loc :=
  notfound_response_for_unresolved_code envBase reqW (by decide) rfl

/-- C3: for a resolved link the response (status and location) is the same
whatever the outcomes of the impression recency check, the impression
write, and the conversion-attribution call; and that response is a
redirect. -/
theorem analytics_failure_isolation (env : Env) (req : Req)
    (r : ResolveResult) (u : Option LinkRecord)
    (hskip : isSkipped (extractShortCode req.path) = false)
    (hres : env.resolveCall = .ok (some r))
    (hurl : env.urlLookupCall = .ok u)
    (h1 h2 : Except Unit Bool) (p1 p2 : Except Unit Unit)
    (c1 c2 : ConvHttpOutcome) :
    (redirectMiddleware
        { env with hasRecentCall := h1, recordImpressionOutcome := p1,
                   conversionOutcome := c1 } req).1 =
      (redirectMiddleware
        { env with hasRecentCall := h2, recordImpressionOutcome := p2,
                   conversionOutcome := c2 } req).1 ∧
    ∃ st loc,
      (redirectMiddleware
        { env with hasRecentCall := h1, recordImpressionOutcome := p1,
                   conversionOutcome := c1 } req).1 = Resp.redirect st loc := by
  rw [middleware_resolved
        { env with hasRecentCall := h1, recordImpressionOutcome := p1,
                   conversionOutcome := c1 } req r u hskip hres hurl,
      middleware_resolved
        { env with hasRecentCall := h2, recordImpressionOutcome := p2,
                   conversionOutcome := c2 } req r u hskip hres hurl]
  exact ⟨rfl, _, _, rfl⟩

/-- C3 witness: fault-injected impression and conversion calls leave the
redirect identical to the all-success case. -/
theorem analytics_failure_isolation_witness :
    (redirectMiddleware
        { envResolved with hasRecentCall := .error (),
                           recordImpressionOutcome := .error (),
                           conversionOutcome := .requestError } reqW).1 =
      (redirectMiddleware
        { envResolved with hasRecentCall := .ok false,
                           recordImpressionOutcome := .ok (),
                           conversionOutcome := .response (some 201) none } reqW).1 ∧
    ∃ st loc,
      (redirectMiddleware
        { envResolved with hasRecentCall := .error (),
                           recordImpressionOutcome := .error (),
                           conversionOutcome := .requestError } reqW).1 =
        Resp.redirect st loc :=
  analytics_failure_isolation envResolved reqW rW (some validLink)
    (by decide) rfl rfl (.error ()) (.ok false) (.error ()) (.ok ())
    .requestError (.response (some 201) none)

/-- C4: for a resolved link with an established tracking id, the redirect
location is the destination with the UTM block appended, joined with `&`
when the destination already contains `?` and with `?` otherwise. -/
theorem utm_parameters_construction (env : Env) (req : Req)
    (r : ResolveResult) (u : Option LinkRecord) (tid : String)
    (hskip : isSkipped (extractShortCode req.path) = false)
    (hres : env.resolveCall = .ok (some r))
    (hurl : env.urlLookupCall = .ok u)
    (htid : env.establishedTrackingId = some tid)
    (hne : tid ≠ "") :
    (redirectMiddleware env req).1 =
      Resp.redirect (chooseRedirectType u)
        (r.originalUrl ++ (if strContainsChar r.originalUrl '?' then "&" else "?")
          ++ "utm_source=cylink&utm_medium=shortlink&utm_campaign=conversion&utm_content="
          ++ tid) := by
  rw [middleware_resolved env req r u hskip hres hurl]
  simp [htid, jsTruthyStr, hne, appendUtm, utmTail]

/-- C4 witness: destination `https://example.com/page?x=1` with tracking id
`abc123` redirects to the exact URL from the spec's example. -/
theorem utm_parameters_construction_witness :
    (redirectMiddleware envTid reqW).1 =
      Resp.redirect 301
        "https://example.com/page?x=1&utm_source=cylink&utm_medium=shortlink&utm_campaign=conversion&utm_content=abc123" :=
  (utm_parameters_construction envTid reqW rW (some validLink) "abc123"
    (by decide) rfl rfl rfl (by decide)).trans (by decide)

/-- C5: when the recency check follows the spec model over an impression
store, the row handed to `recordImpression` carries the request's (url id,
IP) pair, its `is_unique` flag is false exactly when an impression for the
pair exists within the trailing 30-minute window at check time, and is
true exactly when every stored impression for the pair is outside the
window. -/
theorem impression_uniqueness_window (env : Env) (req : Req)
    (r : ResolveResult) (u : Option LinkRecord)
    (istore : List StoredImpression) (now : Nat)
    (hskip : isSkipped (extractShortCode req.path) = false)
    (hres : env.resolveCall = .ok (some r))
    (hurl : env.urlLookupCall = .ok u)
    (hrec : env.hasRecentCall =
      .ok (hasRecentImpression istore r.urlId
        (jsOrOpt req.xForwardedFor req.socketRemoteAddress) now)) :
    ∃ row, (redirectMiddleware env req).2.impressionRecorded = some row ∧
      row.url_id = r.urlId ∧
      row.ip_address = jsOrOpt req.xForwardedFor req.socketRemoteAddress ∧
      (row.is_unique = false ↔
        hasRecentImpression istore r.urlId
          (jsOrOpt req.xForwardedFor req.socketRemoteAddress) now = true) ∧
      (row.is_unique = true ↔
        ∀ s ∈ istore, s.url_id = r.urlId →
          s.ip_address = jsOrOpt req.xForwardedFor req.socketRemoteAddress →
          s.time + thirtyMinutesMs ≤ now) := by
  rw [middleware_resolved env req r u hskip hres hurl]
  rw [← hasRecentImpression_eq_false istore r.urlId
        (jsOrOpt req.xForwardedFor req.socketRemoteAddress) now]
  refine ⟨{ url_id := r.urlId
            ip_address := jsOrOpt req.xForwardedFor req.socketRemoteAddress
            user_agent := jsOrString req.userAgent ""
            referrer := jsOrString req.referer (jsOrString req.referrerHeader "")
            is_unique := !hasRecentImpression istore r.urlId
              (jsOrOpt req.xForwardedFor req.socketRemoteAddress) now
            source := trafficSource env.parseHost
              (jsOrString req.referer (jsOrString req.referrerHeader "")) },
    by simp [hrec], rfl, rfl, ?_, ?_⟩ <;>
    cases hasRecentImpression istore r.urlId
      (jsOrOpt req.xForwardedFor req.socketRemoteAddress) now <;> simp

/-- C5 witness: with a stored impression for the pair at time 0, a request
at minute 10 is recorded non-unique and a request at minute 31 is recorded
unique. -/
theorem impression_uniqueness_window_witness :
    (redirectMiddleware envRecent reqW).2.impressionRecorded.map
        ImpressionRow.is_unique = some false ∧
    (redirectMiddleware envStale reqW).2.impressionRecorded.map
        ImpressionRow.is_unique = some true := by
  constructor
  · obtain ⟨row, hrow, _, _, hiff, _⟩ :=
      impression_uniqueness_window envRecent reqW rW (some validLink)
        istoreW 600000 (by decide) rfl rfl rfl
    have hval : row.is_unique = false := hiff.mpr (by decide)
    simp [hrow, hval]
  · obtain ⟨row, hrow, _, _, _, hiff⟩ :=
      impression_uniqueness_window envStale reqW rW (some validLink)
        istoreW 1860000 (by decide) rfl rfl rfl
    have hval : row.is_unique = true := hiff.mpr (by decide)
    simp [hrow, hval]

/-- C6 counterexample: with tracking id `abc123` established and the goal
lookup returning one existing goal — whose auto id is the JS-falsy value
0 — the program's `if (goalId)` guard (redirectMiddleware.ts line 220)
makes no conversion call, refuting the claim that a call is made exactly
when a goal exists and a tracking id is established. -/
theorem zero_goal_id_suppresses_conversion :
    envGoalZero.establishedTrackingId = some "abc123" ∧
    envGoalZero.goalsCall = .ok [{ id := 0 }] ∧
    ([{ id := 0 }] : List ConversionGoal) ≠ [] ∧
    (redirectMiddleware envGoalZero reqW).2.conversionScheduled = none := by
  exact ⟨rfl, rfl, by decide, by decide⟩

/-- C6 (amended): when the goal lookup succeeds, a conversion call is
scheduled exactly when a tracking id is established and the first goal
returned exists and has a truthy (nonzero) id, and the call uses that
first goal. -/
theorem conversion_trigger_condition (env : Env) (req : Req)
    (r : ResolveResult) (u : Option LinkRecord) (gs : List ConversionGoal)
    (hskip : isSkipped (extractShortCode req.path) = false)
    (hres : env.resolveCall = .ok (some r))
    (hurl : env.urlLookupCall = .ok u)
    (hgoals : env.goalsCall = .ok gs) :
    (redirectMiddleware env req).2.conversionScheduled =
      (if jsTruthyStr env.establishedTrackingId then
        match gs.head? with
        | some g =>
          if g.id ≠ 0 then some (env.establishedTrackingId.getD "", g.id)
          else none
        | none => none
       else none) ∧
    ((redirectMiddleware env req).2.conversionScheduled ≠ none ↔
      (jsTruthyStr env.establishedTrackingId = true ∧
        ∃ g gs', gs = g :: gs' ∧ g.id ≠ 0)) := by
  rw [middleware_resolved env req r u hskip hres hurl]
  cases htid : jsTruthyStr env.establishedTrackingId <;>
    cases gs with
    | nil => simp [hgoals, htid, jsTruthyNat]
    | cons g t =>
      by_cases hg : g.id = 0 <;> simp [hgoals, htid, jsTruthyNat, hg]

/-- C6 (amended) witness: with tracking id `abc123` and goals `[31, 32]`,
the scheduled call uses goal 31; and the trigger condition holds at that
input. -/
theorem conversion_trigger_condition_witness :
    (redirectMiddleware envGoals reqW).2.conversionScheduled =
      some ("abc123", 31) ∧
    ((redirectMiddleware envGoals reqW).2.conversionScheduled ≠ none ↔
      (jsTruthyStr envGoals.establishedTrackingId = true ∧
        ∃ g gs', ([{ id := 31 }, { id := 32 }] : List ConversionGoal) = g :: gs'
          ∧ g.id ≠ 0)) := by
  have h := conversion_trigger_condition envGoals reqW rW (some validLink)
    [{ id := 31 }, { id := 32 }] (by decide) rfl rfl rfl
  exact ⟨h.1.trans (by decide), h.2⟩

/-- C9: the recorded impression's traffic source is the hostname parsed
from a non-empty referrer, the raw referrer when parsing fails, and the
empty string when the referrer is absent or empty. -/
theorem traffic_source_derivation (env : Env) (req : Req)
    (r : ResolveResult) (u : Option LinkRecord) (b : Bool)
    (hskip : isSkipped (extractShortCode req.path) = false)
    (hres : env.resolveCall = .ok (some r))
    (hurl : env.urlLookupCall = .ok u)
    (hrec : env.hasRecentCall = .ok b) :
    ∃ row, (redirectMiddleware env req).2.impressionRecorded = some row ∧
      row.referrer = jsOrString req.referer (jsOrString req.referrerHeader "") ∧
      (jsOrString req.referer (jsOrString req.referrerHeader "") = "" →
        row.source = "") ∧
      (jsOrString req.referer (jsOrString req.referrerHeader "") ≠ "" →
        ∀ h, env.parseHost
            (jsOrString req.referer (jsOrString req.referrerHeader "")) = some h →
          row.source = h) ∧
      (jsOrString req.referer (jsOrString req.referrerHeader "") ≠ "" →
        env.parseHost
            (jsOrString req.referer (jsOrString req.referrerHeader "")) = none →
        row.source = jsOrString req.referer (jsOrString req.referrerHeader "")) := by
  rw [middleware_resolved env req r u hskip hres hurl]
  refine ⟨{ url_id := r.urlId
            ip_address := jsOrOpt req.xForwardedFor req.socketRemoteAddress
            user_agent := jsOrString req.userAgent ""
            referrer := jsOrString req.referer (jsOrString req.referrerHeader "")
            is_unique := !b
            source := trafficSource env.parseHost
              (jsOrString req.referer (jsOrString req.referrerHeader "")) },
    by simp [hrec], rfl, ?_, ?_, ?_⟩
  · intro hempty
    simp [trafficSource, hempty]
  · intro hne h hparse
    simp [trafficSource, hne, hparse]
  · intro hne hparse
    simp [trafficSource, hne, hparse]

/-- C9 witness: referrer `https://ref.example/page` parses to hostname
`ref.example`, which is the recorded source. -/
theorem traffic_source_derivation_witness :
    (redirectMiddleware envResolved reqW).2.impressionRecorded.map
      ImpressionRow.source = some "ref.example" := by
  obtain ⟨row, hrow, _, _, hparsed, _⟩ :=
    traffic_source_derivation envResolved reqW rW (some validLink) false
      (by decide) rfl rfl rfl
  have hval : row.source = "ref.example" :=
    hparsed (by decide) "ref.example" (by decide)
  simp [hrow, hval]

/-- C7: the conversion trigger posts JSON `{tracking_id, goal_id}` to
`/api/v1/conversions`; every 2xx response with a `data` object is a logged
success carrying the returned conversion id; any non-2xx status is logged
as an error and resolved; a malformed body or transport error rejects but
the detached task converts every rejection to a log entry; and the
middleware's response does not depend on the call's outcome. -/
theorem auto_track_conversion_behavior (tid : String) (gid : Nat) :
    conversionRequest tid gid =
      { hostPath := "/api/v1/conversions", method := "POST",
        tracking_id := tid, goal_id := gid } ∧
    (∀ (s : Nat) (msg : Option String) (cid : Option Nat), 200 ≤ s → s < 300 →
      autoTrackConversion
          (.response (some s) (some { data := some cid, message := msg })) =
        .successLogged cid) ∧
    (∀ (s : Option Nat) (b : ConvRespBody),
      (∀ v, s = some v → ¬(200 ≤ v ∧ v < 300)) →
      autoTrackConversion (.response s (some b)) =
        .errorLogged (jsOrString b.message "Unknown error")) ∧
    (∀ s, autoTrackConversion (.response s none) = .parseErrorRejected) ∧
    autoTrackConversion .requestError = .requestErrorRejected ∧
    (∀ o, scheduledConversionTask o = .resolved ∨
      scheduledConversionTask o = .errorLoggedOnly) ∧
    (∀ (env : Env) (req : Req) (o1 o2 : ConvHttpOutcome),
      (redirectMiddleware { env with conversionOutcome := o1 } req).1 =
        (redirectMiddleware { env with conversionOutcome := o2 } req).1) := by
  refine ⟨rfl, ?_, ?_, fun s => rfl, rfl, ?_, ?_⟩
  · intro s msg cid h1 h2
    have hst : status2xxJs (some s) = true := by
      simp only [status2xxJs, Bool.and_eq_true, decide_eq_true_eq]
      omega
    simp [autoTrackConversion, hst]
  · intro s b hnot
    have hst : status2xxJs s = false := by
      cases s with
      | none => rfl
      | some v =>
        rw [Bool.eq_false_iff]
        intro htrue
        simp only [status2xxJs, Bool.and_eq_true, decide_eq_true_eq] at htrue
        exact (hnot v rfl) ⟨htrue.1.2, htrue.2⟩
    simp [autoTrackConversion, hst]
  · intro o
    cases hrej : convRejects (autoTrackConversion o)
    · exact Or.inl (by simp [scheduledConversionTask, hrej])
    · exact Or.inr (by simp [scheduledConversionTask, hrej])
  · intro env req o1 o2
    rfl

/-- C7 witness: a 201 response with conversion id 42 logs success; a 404
response logs its message and resolves; a 404 response whose message is the
JS-falsy empty string logs `Unknown error`; a malformed 500 body only
yields a logged error in the detached task. -/
theorem auto_track_conversion_behavior_witness :
    autoTrackConversion
        (.response (some 201) (some { data := some (some 42), message := none })) =
      .successLogged (some 42) ∧
    autoTrackConversion
        (.response (some 404) (some { data := none, message := some "Not found" })) =
      .errorLogged "Not found" ∧
    autoTrackConversion
        (.response (some 404) (some { data := none, message := some "" })) =
      .errorLogged "Unknown error" ∧
    scheduledConversionTask (.response (some 500) none) = .errorLoggedOnly := by
  have h := auto_track_conversion_behavior "tid1" 31
  refine ⟨h.2.1 201 none (some 42) (by decide) (by decide), ?_, ?_, by decide⟩
  · have h404 := h.2.2.1 (some 404)
      { data := none, message := some "Not found" }
      (fun v hv => by injection hv with hv; omega)
    simpa using h404
  · have hempty := h.2.2.1 (some 404)
      { data := none, message := some "" }
      (fun v hv => by injection hv with hv; omega)
    simpa using hempty

/-- C10: for a URL record whose `user_id` is null, the ownership guard in
`getUrlDetails`, `deleteUrl` and `getUrlAnalytics` never produces the 401
response, and each handler reaches its success path for any authenticated
user when the downstream operations succeed. -/
theorem anonymous_link_ownership_bypass (url : LinkRecord) (userId i : Int)
    (hanon : url.user_id = none) :
    getUrlDetails (some url) userId (.ok ()) = .success ∧
    deleteUrl (some i) (some url) userId true = .success ∧
    getUrlAnalytics (some i) (some url) userId (.ok ()) = .success ∧
    (∀ ds : Except Unit Unit,
      getUrlDetails (some url) userId ds ≠ .error 401 "Unauthorized") ∧
    (∀ b : Bool,
      deleteUrl (some i) (some url) userId b ≠ .error 401 "Unauthorized") ∧
    (∀ ds : Except Unit Unit,
      getUrlAnalytics (some i) (some url) userId ds ≠ .error 401 "Unauthorized") := by
  have hrej : ownershipRejects userId url.user_id = false := by
    simp [ownershipRejects, jsTruthyInt, hanon]
  refine ⟨by simp [getUrlDetails, hrej], by simp [deleteUrl, hrej],
    by simp [getUrlAnalytics, hrej], ?_, ?_, ?_⟩
  · intro ds
    cases ds <;> simp [getUrlDetails, hrej]
  · intro b
    cases b <;> simp [deleteUrl, hrej]
  · intro ds
    cases ds <;> simp [getUrlAnalytics, hrej]

/-- C10 witness: user 7 reads, deletes and gets analytics for the
anonymous link, and no input produces the 401 response. -/
theorem anonymous_link_ownership_bypass_witness :
    getUrlDetails (some anonUrl) 7 (.ok ()) = .success ∧
    deleteUrl (some 3) (some anonUrl) 7 true = .success ∧
    getUrlAnalytics (some 3) (some anonUrl) 7 (.ok ()) = .success ∧
    (∀ ds : Except Unit Unit,
      getUrlDetails (some anonUrl) 7 ds ≠ .error 401 "Unauthorized") ∧
    (∀ b : Bool,
      deleteUrl (some 3) (some anonUrl) 7 b ≠ .error 401 "Unauthorized") ∧
    (∀ ds : Except Unit Unit,
      getUrlAnalytics (some 3) (some anonUrl) 7 ds ≠ .error 401 "Unauthorized") :=
  anonymous_link_ownership_bypass anonUrl 7 3 rfl

/-- C1 counterexample: `apifoo` names an active, never-deleted,
never-expiring link which the spec-modelled resolver resolves, yet the
middleware passes the request through without any redirect because the
code starts with the reserved `api` prefix. -/
theorem reserved_code_not_redirected :
    apiLink.short_code = "apifoo" ∧
    apiLink.is_active = true ∧
    apiLink.deleted_at = none ∧
    apiLink.expiry_date = none ∧
    recordClickAndGetOriginalUrl [apiLink] "apifoo" 0 1 =
      some { originalUrl := "https://example.com/landing", clickId := 1, urlId := 1 } ∧
    extractShortCode apiReq.path = "apifoo" ∧
    (redirectMiddleware apiEnv apiReq).1 = Resp.next := by
  decide

/-- C1 (amended): for every valid, active, non-expired short code that is
non-empty, contains no slash and does not start with the reserved `api`
prefix, a request for that path resolves to one 3xx redirect whose status
is 301 exactly when the link's redirect type is the literal `301` marker
and 302 otherwise. -/
theorem redirect_status_for_valid_code (env : Env) (req : Req)
    (store : List LinkRecord) (now clickId : Nat)
    (l : LinkRecord) (code : String)
    (hpath : extractShortCode req.path = code)
    (hne : code ≠ "")
    (hslash : strContainsChar code '/' = false)
    (hapi : startsWithApi code = false)
    (hmem : l ∈ store)
    (huniq : ∀ l' ∈ store, l'.short_code = code → l' = l)
    (hcode : l.short_code = code)
    (hact : l.is_active = true)
    (hdel : l.deleted_at = none)
    (hexp : notExpired now l = true)
    (hres : env.resolveCall = .ok (recordClickAndGetOriginalUrl store code now clickId))
    (hurl : env.urlLookupCall = .ok (getUrlByShortCode store code)) :
    ∃ st loc, (redirectMiddleware env req).1 = Resp.redirect st loc ∧
      300 ≤ st ∧ st < 400 ∧
      st = (if l.redirect_type = some "301" then 301 else 302) := by
  have hskip : isSkipped (extractShortCode req.path) = false := by
    rw [hpath]
    simp [isSkipped, hslash, hapi, hne]
  have hfind1 : store.find? (fun l' =>
      l'.short_code == code && l'.deleted_at == none && l'.is_active
        && notExpired now l') = some l := by
    refine findUniqueCode _ code l store ?_ hmem ?_ huniq
    · intro l' h
      simp only [Bool.and_eq_true, beq_iff_eq] at h
      exact h.1.1.1
    · simp [hcode, hdel, hact, hexp]
  have hfind2 : store.find? (fun l' =>
      l'.short_code == code && l'.deleted_at == none && l'.is_active) = some l := by
    refine findUniqueCode _ code l store ?_ hmem ?_ huniq
    · intro l' h
      simp only [Bool.and_eq_true, beq_iff_eq] at h
      exact h.1.1
    · simp [hcode, hdel, hact]
  have hres' : env.resolveCall =
      .ok (some { originalUrl := l.original_url, clickId := clickId, urlId := l.id }) := by
    rw [hres]
    simp [recordClickAndGetOriginalUrl, hfind1]
  have hurl' : env.urlLookupCall = .ok (some l) := by
    rw [hurl]
    simp [getUrlByShortCode, hfind2]
  rw [middleware_resolved env req
    { originalUrl := l.original_url, clickId := clickId, urlId := l.id }
    (some l) hskip hres' hurl']
  refine ⟨chooseRedirectType (some l), _, rfl, ?_, ?_, ?_⟩ <;>
    simp only [chooseRedirectType, beq_iff_eq] <;> split <;> decide

/-- C1 (amended) witness: the valid code `abc123` with redirect type `301`
redirects with status 301 at time 500, before its expiry. -/
theorem redirect_status_for_valid_code_witness :
    ∃ st loc, (redirectMiddleware validEnv reqW).1 = Resp.redirect st loc ∧
      300 ≤ st ∧ st < 400 ∧
      st = (if validLink.redirect_type = some "301" then 301 else 302) :=
  redirect_status_for_valid_code validEnv reqW [validLink] 500 11 validLink
    "abc123" (by decide) (by decide) (by decide) (by decide)
    (by decide) (by decide) rfl rfl rfl (by decide) rfl rfl

end Cylink
